import Mathlib

/-!
Verification development for the Lead-Scoring-Customer-Insights-Engine
repository: a shallow embedding of `src/lead_scoring.py`, `src/rag_pipeline.py`,
`src/create_vector_store.py`, `src/preprocess.py` and the calling code in
`app.py`, together with theorems settling the specification claims.

Python dicts are modelled as association lists over a small JSON-like value
type; Python exceptions raised by external collaborators (file system, the
LLM chain) are modelled as `Option`/`Except` parameters, and the repository
functions that catch them are total Lean functions.
-/

namespace LeadInsights

/-- Values stored in the Python dictionaries that flow through the scoring
pipeline (parsed JSON from the model response, plus strings the code adds). -/
inductive PyVal where
  | int (n : Int)
  | str (s : String)
  | list (l : List PyVal)

/-- A Python dict, as an association list of string keys to values. -/
abbrev Dict := List (String × PyVal)

/-- Membership test `k in d` on a Python dict. -/
def hasKey (d : Dict) (k : String) : Bool :=
  d.any (fun p => p.1 = k)

/-- Lookup `d[k]`, `none` when the key is absent (a Python `KeyError`). -/
def dictGet (d : Dict) (k : String) : Option PyVal :=
  (d.find? (fun p => p.1 = k)).map (fun p => p.2)

/-- Assignment `d[k] = v`: overwrite an existing binding or append a new one. -/
def dictSet (d : Dict) (k : String) (v : PyVal) : Dict :=
  if hasKey d k then d.map (fun p => if p.1 = k then (k, v) else p)
  else d ++ [(k, v)]

/-- Embedding of `os.path.basename` for the slash-separated paths the
repository uses: the characters after the last `/`. -/
def basename (p : String) : String :=
  String.mk (p.data.foldl (fun acc c => if c = '/' then [] else acc ++ [c]) [])

/-- Embedding of the `LeadScore` pydantic model of `src/lead_scoring.py`
(lines 14-17): an integer score, a reasoning string and key-factor strings.
The `score` field carries no range constraint in the source, only a
description saying 1 to 10. -/
structure LeadScore where
  score : Int
  reasoning : String
  key_factors : List String
  deriving DecidableEq, Repr

/-- The dict a schema-conformant model response parses to: exactly the three
`LeadScore` fields. -/
def LeadScore.toDict (ls : LeadScore) : Dict :=
  [("score", PyVal.int ls.score),
   ("reasoning", PyVal.str ls.reasoning),
   ("key_factors", PyVal.list (ls.key_factors.map PyVal.str))]

/-- A file system: maps a path to its content, `none` when opening raises
`FileNotFoundError`. -/
abbrev FileSystem := String → Option String

/-- The scoring chain (prompt | llm | parser) as an external collaborator:
document text in, either the parsed JSON dict or an exception message out. -/
abbrev ScorerChain := String → Except String Dict

/-- Embedding of `score_lead` (`src/lead_scoring.py` lines 54-69): read the
document, invoke the chain, attach `source`; `FileNotFoundError` and every
other exception are caught and converted to an error dict. The Lean function
is total: all exceptions of the Python body live in `fs` and `chain`. -/
def score_lead (fs : FileSystem) (chain : ScorerChain) (document_path : String) : Dict :=
  match fs document_path with
  | none =>
      [("error", PyVal.str "File not found."),
       ("source", PyVal.str (basename document_path))]
  | some content =>
      match chain content with
      | Except.error e =>
          [("error", PyVal.str e),
           ("source", PyVal.str (basename document_path))]
      | Except.ok result =>
          dictSet result "source" (PyVal.str (basename document_path))

/-- Embedding of `all_scores` in `app.py` (line 131): score every document of
the batch with a list comprehension. -/
def all_scores (fs : FileSystem) (chain : ScorerChain) (document_files : List String) : List Dict :=
  document_files.map (score_lead fs chain)

/-- Embedding of `successful_scores` in `app.py` (line 133): keep the results
`s` with `s and 'score' in s` — a non-empty dict having a `score` key. -/
def successful_scores (scores : List Dict) : List Dict :=
  scores.filter (fun s => !s.isEmpty && hasKey s "score")

/-- The sort key `lambda x: x['score']` of `app.py` line 134, as an integer
(the dicts reaching the sort all carry a `score` key; a non-integer value
there would make Python's comparison raise, a case outside the claims). -/
def scoreKey (s : Dict) : Int :=
  match dictGet s "score" with
  | some (PyVal.int n) => n
  | _ => 0

/-- Embedding of `sorted_scores` in `app.py` (line 134): Python's stable
`sorted` with `reverse=True`, i.e. a stable sort by non-increasing score. -/
def sorted_scores (succ : List Dict) : List Dict :=
  succ.mergeSort (fun a b => scoreKey b ≤ scoreKey a)

/-- Outcome of the single-document display path of `app.py` (lines 119-123):
either the metric and rationale shown, or the "Could not retrieve a valid
score." branch. -/
inductive DisplayOutcome where
  | shown (score : PyVal) (rationale : PyVal)
  | invalidScore

/-- Embedding of the `Score Selected Document` branch of `app.py`
(lines 119-123): when `score_result and 'score' in score_result`, show the
metric from `score_result['score']` and then read `score_result['rationale']`;
an absent key is an uncaught Python `KeyError`, modelled as `Except.error`. -/
def score_selected_display (score_result : Dict) : Except String DisplayOutcome :=
  if !score_result.isEmpty && hasKey score_result "score" then
    match dictGet score_result "score" with
    | none => Except.error "KeyError: score"
    | some sv =>
        match dictGet score_result "rationale" with
        | none => Except.error "KeyError: rationale"
        | some rv => Except.ok (DisplayOutcome.shown sv rv)
  else Except.ok DisplayOutcome.invalidScore

/-- A loaded document or chunk: page content plus the `source` metadata that
`TextLoader` and the splitter attach and preserve. -/
structure RagDoc where
  page_content : String
  source : String
  deriving DecidableEq, Repr

/-- Result of `load_and_chunk_documents`: the chunk list, plus whether the
"No documents found" warning was printed. -/
structure ChunkOutcome where
  chunks : List RagDoc
  warned : Bool
  deriving DecidableEq, Repr

/-- Embedding of `load_and_chunk_documents` (`src/preprocess.py` lines 11-40):
`loaded` is what `DirectoryLoader.load()` returned for the directory, and
`splitDocs` is the external `RecursiveCharacterTextSplitter.split_documents`
collaborator. With no documents the function warns and returns the empty
list before any splitting. -/
def load_and_chunk_documents (loaded : List RagDoc)
    (splitDocs : List RagDoc → List RagDoc) : ChunkOutcome :=
  if loaded.isEmpty then { chunks := [], warned := true }
  else { chunks := splitDocs loaded, warned := false }

/-- File-system operations `create_vector_store` can perform on the persisted
index. `rename` is in the vocabulary so that the absence of any swap of a
temporary location into place is expressible; the source never emits it. -/
inductive FsOp where
  | makedirs (path : String)
  | saveLocal (path : String)
  | rename (src : String) (dst : String)
  deriving DecidableEq, Repr

/-- Check of a build trace for any rename/swap of a temporary location into
place; the source never performs one. -/
def mentions_rename (ops : List FsOp) : Bool :=
  ops.any (fun op => match op with
    | FsOp.rename _ _ => true
    | _ => false)

/-- The FAISS store built by `create_vector_store`: the embedding model it was
built with and the chunks it holds. -/
structure VectorStoreBuild where
  embeddings_model : String
  chunks : List RagDoc
  deriving DecidableEq, Repr

/-- What a run of `create_vector_store` did: the file-system operations it
performed at the persisted path, and the store it built (`none` on any of the
early returns). -/
structure BuildOutcome where
  ops : List FsOp
  built : Option VectorStoreBuild
  deriving DecidableEq, Repr

/-- Embedding of `create_vector_store` (`src/create_vector_store.py` lines
14-45): chunk the corpus, return early when there are no chunks, when
initializing `HuggingFaceEmbeddings` fails (`embedInitOk = false`) or when
`FAISS.from_documents` fails (`buildOk = false`); otherwise `makedirs` the
output path when absent and `save_local` directly into it. -/
def create_vector_store (loaded : List RagDoc)
    (splitDocs : List RagDoc → List RagDoc)
    (embedInitOk : Bool) (buildOk : Bool) (outputPathExists : Bool)
    (output_path : String) : BuildOutcome :=
  if (load_and_chunk_documents loaded splitDocs).chunks.isEmpty then
    { ops := [], built := none }
  else if !embedInitOk then { ops := [], built := none }
  else if !buildOk then { ops := [], built := none }
  else
    { ops := (if !outputPathExists then [FsOp.makedirs output_path] else []) ++
        [FsOp.saveLocal output_path],
      built := some { embeddings_model := "sentence-transformers/all-MiniLM-L6-v2",
                      chunks := (load_and_chunk_documents loaded splitDocs).chunks } }

/-- The dict `ask_question` returns: the `answer` text and the `context`
documents (the provenance shown to the user). -/
structure RagResult where
  answer : String
  context : List RagDoc
  deriving DecidableEq, Repr

/-- The RAG chain as an external collaborator: query in, either the chain
result or an exception message out. -/
abbrev RagChain := String → Except String RagResult

/-- Embedding of `ask_question` (`src/rag_pipeline.py` lines 57-65): an empty
query short-circuits before the chain is consulted; any exception from
`chain.invoke` is caught and turned into an error-text answer with empty
context. The Lean function is total: the Python body's exceptions live in
`chain`. -/
def ask_question (query : String) (chain : RagChain) : RagResult :=
  if query = "" then { answer := "Please enter a query.", context := [] }
  else
    match chain query with
    | Except.ok result => result
    | Except.error e => { answer := "An error occurred: " ++ e, context := [] }

/-- Exceptions `load_rag_pipeline` can raise: the explicit
`FileNotFoundError` of the missing-store check, or whatever
`FAISS.load_local` raises on a corrupt store (propagated uncaught). -/
inductive PipelineExc where
  | fileNotFoundError (msg : String)
  | otherExc (msg : String)
  deriving DecidableEq, Repr

/-- The configuration `load_rag_pipeline` assembles, read off the source:
store path, embedding model name, retriever `k`, and LLM model. -/
structure RagPipelineConfig where
  vector_store_path : String
  embeddings_model : String
  retriever_k : Nat
  llm_model : String
  deriving DecidableEq, Repr

/-- Embedding of `load_rag_pipeline` (`src/rag_pipeline.py` lines 12-55):
raise `FileNotFoundError` when the store path does not exist, then load the
store (`faissLoadExc` models an exception from `FAISS.load_local` on a
corrupt store, which the source does not catch) and assemble the pipeline
configuration. -/
def load_rag_pipeline (pathExists : String → Bool) (faissLoadExc : Option String) :
    Except PipelineExc RagPipelineConfig :=
  if !pathExists "faiss_index" then
    Except.error (PipelineExc.fileNotFoundError
      ("Vector store not found at " ++ "faiss_index" ++ ". " ++
       "Please run `create_vector_store.py` first."))
  else
    match faissLoadExc with
    | some e => Except.error (PipelineExc.otherExc e)
    | none =>
        Except.ok { vector_store_path := "faiss_index",
                    embeddings_model := "sentence-transformers/all-MiniLM-L6-v2",
                    retriever_k := 3,
                    llm_model := "deepseek/deepseek-chat:free" }

/-- A parsed model response whose integer score, 15, lies outside [1,10]; the
`LeadScore` schema places no range constraint on `score`, so it parses. -/
def chainResultOutOfRange : Dict :=
  [("score", PyVal.int 15), ("reasoning", PyVal.str "very large loan"),
   ("key_factors", PyVal.list [PyVal.str "loan amount"])]

/-- A parsed model response with an in-range score of 7. -/
def chainResultInRange : Dict :=
  [("score", PyVal.int 7), ("reasoning", PyVal.str "solid financials"),
   ("key_factors", PyVal.list [PyVal.str "contract terms"])]

/-- The scoring result for `mock_docs/doc_a.txt`: out-of-range score 15. -/
def outOfRangeResult : Dict :=
  [("score", PyVal.int 15), ("reasoning", PyVal.str "very large loan"),
   ("key_factors", PyVal.list [PyVal.str "loan amount"]),
   ("source", PyVal.str "doc_a.txt")]

/-- The scoring result for `mock_docs/doc_b.txt`: in-range score 7. -/
def inRangeResult : Dict :=
  [("score", PyVal.int 7), ("reasoning", PyVal.str "solid financials"),
   ("key_factors", PyVal.list [PyVal.str "contract terms"]),
   ("source", PyVal.str "doc_b.txt")]

/-- An error result with no `score` key, shaped as `score_lead` builds it. -/
def timeoutResult : Dict :=
  [("error", PyVal.str "Timeout"), ("source", PyVal.str "doc_c.txt")]

/-- A file system where every path holds text derived from its name. -/
def fsTwo : FileSystem := fun p => some ("Contents of " ++ p)

/-- A chain returning the out-of-range response for document a and the
in-range response otherwise. -/
def chainTwo : ScorerChain := fun c =>
  if c = "Contents of mock_docs/doc_a.txt" then Except.ok chainResultOutOfRange
  else Except.ok chainResultInRange

/-- A corpus document for concrete build runs. -/
def sampleDoc : RagDoc :=
  { page_content := "Loan amount: 5,000,000. Term: 10 years.",
    source := "mock_docs/document_1.txt" }

/-- The store a successful concrete build produces. -/
def builtStoreW : VectorStoreBuild :=
  { embeddings_model := "sentence-transformers/all-MiniLM-L6-v2",
    chunks := [sampleDoc] }

/-- The configuration a successful concrete load produces. -/
def ragConfigW : RagPipelineConfig :=
  { vector_store_path := "faiss_index",
    embeddings_model := "sentence-transformers/all-MiniLM-L6-v2",
    retriever_k := 3,
    llm_model := "deepseek/deepseek-chat:free" }

/-- Scenario-D file system: document 3 holds garbled text. -/
def fsD : FileSystem := fun p =>
  if p = "mock_docs/d3.txt" then some "garbled" else some ("Document at " ++ p)

/-- Scenario-D chain: on the garbled text the parser raises. -/
def chainD : ScorerChain := fun c =>
  if c = "garbled" then Except.error "Invalid json output"
  else Except.ok chainResultInRange

/-- A schema-conformant lead score for the display-path claims. -/
def sampleLeadScore : LeadScore :=
  { score := 8, reasoning := "strong financials", key_factors := ["loan amount"] }

/-- A chain that always returns the schema-conformant sample response. -/
def chainSchema : ScorerChain := fun _ => Except.ok (LeadScore.toDict sampleLeadScore)

/-- A file system where every file opens with fixed content. -/
def fsConst : FileSystem := fun _ => some "Acme Corp seeks a 5,000,000 loan."

/-- A file system where every open raises FileNotFoundError. -/
def fsMissing : FileSystem := fun _ => none

/-- C2: for the empty query, `ask_question` returns the fixed
"Please enter a query." answer with empty context, and the returned value is
independent of the chain — the language model is never invoked. -/
theorem C2_empty_query_short_circuit :
    (∀ chain : RagChain,
      ask_question "" chain = { answer := "Please enter a query.", context := [] }) ∧
    (∀ chain₁ chain₂ : RagChain, ask_question "" chain₁ = ask_question "" chain₂) := by
  exact ⟨fun _ => rfl, fun _ _ => rfl⟩

/-- C3: for a non-empty query, an exception raised by the chain invocation is
caught and turned into an answer embedding the error description, with empty
context; it is never propagated (the embedded `ask_question` is total). -/
theorem C3_llm_failure_caught (query e : String) (chain : RagChain)
    (hq : query ≠ "") (hc : chain query = Except.error e) :
    ask_question query chain =
      { answer := "An error occurred: " ++ e, context := [] } := by
  unfold ask_question
  rw [if_neg hq, hc]

/-- Witness for C3 at a concrete query and a concrete timeout exception. -/
theorem C3_llm_failure_caught_witness :
    ask_question "What are the loan terms?" (fun _ => Except.error "Timeout") =
      { answer := "An error occurred: Timeout", context := [] } :=
  C3_llm_failure_caught "What are the loan terms?" "Timeout"
    (fun _ => Except.error "Timeout") (by decide) rfl

/-- C5: whenever the vector store path does not exist, `load_rag_pipeline`
raises `FileNotFoundError`, whose message ends in the claim's quoted
instruction to run the build step first. -/
theorem C5_missing_store_file_not_found (pathExists : String → Bool)
    (faissLoadExc : Option String) (h : pathExists "faiss_index" = false) :
    load_rag_pipeline pathExists faissLoadExc =
      Except.error (PipelineExc.fileNotFoundError
        ("Vector store not found at faiss_index. " ++
         "Please run `create_vector_store.py` first.")) := by
  simp [load_rag_pipeline, h]

/-- Witness for C5 on a file system holding no path at all. -/
theorem C5_missing_store_file_not_found_witness :
    load_rag_pipeline (fun _ => false) none =
      Except.error (PipelineExc.fileNotFoundError
        ("Vector store not found at faiss_index. " ++
         "Please run `create_vector_store.py` first.")) :=
  C5_missing_store_file_not_found (fun _ => false) none rfl

/-- C8: an empty corpus short-circuits: `load_and_chunk_documents` returns the
empty chunk list (printing the warning) and `create_vector_store` returns
without building a store or touching the file system. -/
theorem C8_empty_corpus_short_circuit (splitDocs : List RagDoc → List RagDoc)
    (embedInitOk buildOk outputPathExists : Bool) (output_path : String) :
    load_and_chunk_documents [] splitDocs = { chunks := [], warned := true } ∧
    create_vector_store [] splitDocs embedInitOk buildOk outputPathExists output_path =
      { ops := [], built := none } := by
  exact ⟨rfl, rfl⟩

/-- C4 counterexample: on a concrete non-empty corpus with every external
step succeeding, `create_vector_store` emits exactly a `makedirs` and a
`save_local` aimed directly at the output path `faiss_index`: the single
write of the run targets the output path itself, and no rename/swap of a
temporary location into place ever occurs, so the claimed write-to-temp-then-
swap discipline is absent. -/
theorem C4_no_temp_swap_counterexample :
    (create_vector_store [sampleDoc] id true true false "faiss_index").ops =
      [FsOp.makedirs "faiss_index", FsOp.saveLocal "faiss_index"] ∧
    mentions_rename (create_vector_store [sampleDoc] id true true false "faiss_index").ops
      = false ∧
    (create_vector_store [sampleDoc] id true true false "faiss_index").ops.countP
      (fun op => match op with
        | FsOp.saveLocal _ => true
        | _ => false) = 1 := by
  exact ⟨rfl, rfl, rfl⟩

/-- C4 amended: `create_vector_store` overwrites the persisted index in
place, not atomically: on every run its trace is empty (an early return) or
consists of an optional `makedirs` of the output path followed by a
`save_local` directly into the output path; it never renames or swaps a
temporary location into place. -/
theorem C4_direct_overwrite (loaded : List RagDoc)
    (splitDocs : List RagDoc → List RagDoc)
    (embedInitOk buildOk outputPathExists : Bool) (output_path : String) :
    mentions_rename
      (create_vector_store loaded splitDocs embedInitOk buildOk outputPathExists
        output_path).ops = false ∧
    (create_vector_store loaded splitDocs embedInitOk buildOk outputPathExists
        output_path).ops =
      (if (create_vector_store loaded splitDocs embedInitOk buildOk outputPathExists
            output_path).built.isSome then
        (if !outputPathExists then [FsOp.makedirs output_path] else []) ++
          [FsOp.saveLocal output_path]
      else []) := by
  unfold create_vector_store
  constructor
  · split
    · rfl
    · split
      · rfl
      · split
        · rfl
        · split <;> simp [mentions_rename]
  · split
    · rfl
    · split
      · rfl
      · split
        · rfl
        · simp

/-- C1 counterexample: a parsed response with score 15, outside [1,10],
reaches a scoring result through `score_lead`, survives the caller's
presence-of-`score` filter, and appears in the sorted ranking — it is not
excluded from the successful-scores subset. -/
theorem C1_out_of_range_ranked_counterexample :
    score_lead fsTwo chainTwo "mock_docs/doc_a.txt" = outOfRangeResult ∧
    scoreKey outOfRangeResult = 15 ∧
    successful_scores
        (all_scores fsTwo chainTwo ["mock_docs/doc_a.txt", "mock_docs/doc_b.txt"]) =
      [outOfRangeResult, inRangeResult] ∧
    outOfRangeResult ∈
      sorted_scores (successful_scores
        (all_scores fsTwo chainTwo ["mock_docs/doc_a.txt", "mock_docs/doc_b.txt"])) := by
  refine ⟨rfl, rfl, rfl, ?_⟩
  refine List.mem_mergeSort.mpr ?_
  exact List.mem_cons_self _ _

/-- C1 amended: a result whose `score` field is missing is excluded from the
successful-scores subset and never appears in the sorted ranking; the kept
results — including any whose present score lies outside [1,10] — are a
permutation of the filtered subset sorted by score descending. -/
theorem C1_missing_score_excluded (batch : List Dict) (s : Dict)
    (h : hasKey s "score" = false) :
    s ∉ successful_scores batch ∧
    s ∉ sorted_scores (successful_scores batch) ∧
    List.Perm (sorted_scores (successful_scores batch)) (successful_scores batch) ∧
    List.Pairwise (fun a b => scoreKey b ≤ scoreKey a)
      (sorted_scores (successful_scores batch)) := by
  have h1 : s ∉ successful_scores batch := by
    intro hs
    have h2 := (List.mem_filter.mp hs).2
    rw [h] at h2
    simp at h2
  have htrans : ∀ a b c : Dict, decide (scoreKey b ≤ scoreKey a) = true →
      decide (scoreKey c ≤ scoreKey b) = true →
      decide (scoreKey c ≤ scoreKey a) = true := by
    intro a b c hab hbc
    simp only [decide_eq_true_eq] at hab hbc ⊢
    omega
  have htotal : ∀ a b : Dict,
      (decide (scoreKey b ≤ scoreKey a) || decide (scoreKey a ≤ scoreKey b)) = true := by
    intro a b
    simp only [Bool.or_eq_true, decide_eq_true_eq]
    omega
  refine ⟨h1, ?_, ?_, ?_⟩
  · intro hs
    exact h1 (List.mem_mergeSort.mp hs)
  · exact List.mergeSort_perm _ _
  · have hs := @List.sorted_mergeSort Dict
      (fun a b => decide (scoreKey b ≤ scoreKey a)) htrans htotal
      (successful_scores batch)
    exact hs.imp (fun hab => by simpa using hab)

/-- Witness for the amended C1: a concrete error result with no `score` key
in a concrete batch is kept out of the filtered subset and the ranking. -/
theorem C1_missing_score_excluded_witness :
    timeoutResult ∉ successful_scores [outOfRangeResult, timeoutResult, inRangeResult] ∧
    timeoutResult ∉
      sorted_scores (successful_scores [outOfRangeResult, timeoutResult, inRangeResult]) ∧
    List.Perm
      (sorted_scores (successful_scores [outOfRangeResult, timeoutResult, inRangeResult]))
      (successful_scores [outOfRangeResult, timeoutResult, inRangeResult]) ∧
    List.Pairwise (fun a b => scoreKey b ≤ scoreKey a)
      (sorted_scores (successful_scores [outOfRangeResult, timeoutResult, inRangeResult])) :=
  C1_missing_score_excluded [outOfRangeResult, timeoutResult, inRangeResult]
    timeoutResult rfl

/-- C6: batch scoring maps `score_lead` over the documents independently: for
a failing document `d` the batch splits into the untouched batches of the
documents before and after `d`, one structured error result (with an `error`
key and no `score` key) stands in for `d`, and the batch holds exactly one
result per document — no exception aborts the siblings. -/
theorem C6_batch_failure_isolated (fs : FileSystem) (chain : ScorerChain)
    (pre post : List String) (d : String)
    (hfail : fs d = none ∨ ∃ c e, fs d = some c ∧ chain c = Except.error e) :
    all_scores fs chain (pre ++ d :: post) =
      all_scores fs chain pre ++ score_lead fs chain d :: all_scores fs chain post ∧
    (all_scores fs chain (pre ++ d :: post)).length = pre.length + 1 + post.length ∧
    hasKey (score_lead fs chain d) "error" = true ∧
    hasKey (score_lead fs chain d) "score" = false := by
  refine ⟨?_, ?_, ?_, ?_⟩
  · simp [all_scores]
  · simp [all_scores]
    omega
  · rcases hfail with h | ⟨c, e, hc, he⟩
    · simp [score_lead, h, hasKey]
    · simp [score_lead, hc, he, hasKey]
  · rcases hfail with h | ⟨c, e, hc, he⟩
    · simp [score_lead, h, hasKey]
    · simp [score_lead, hc, he, hasKey]

/-- Witness for C6: scenario D — five documents of which the third yields a
malformed model response; the batch keeps one result per document and the
failing one carries the structured error. -/
theorem C6_batch_failure_isolated_witness :
    all_scores fsD chainD
        (["mock_docs/d1.txt", "mock_docs/d2.txt"] ++ "mock_docs/d3.txt" ::
          ["mock_docs/d4.txt", "mock_docs/d5.txt"]) =
      all_scores fsD chainD ["mock_docs/d1.txt", "mock_docs/d2.txt"] ++
        score_lead fsD chainD "mock_docs/d3.txt" ::
          all_scores fsD chainD ["mock_docs/d4.txt", "mock_docs/d5.txt"] ∧
    (all_scores fsD chainD
        (["mock_docs/d1.txt", "mock_docs/d2.txt"] ++ "mock_docs/d3.txt" ::
          ["mock_docs/d4.txt", "mock_docs/d5.txt"])).length = 2 + 1 + 2 ∧
    hasKey (score_lead fsD chainD "mock_docs/d3.txt") "error" = true ∧
    hasKey (score_lead fsD chainD "mock_docs/d3.txt") "score" = false :=
  C6_batch_failure_isolated fsD chainD ["mock_docs/d1.txt", "mock_docs/d2.txt"]
    ["mock_docs/d4.txt", "mock_docs/d5.txt"] "mock_docs/d3.txt"
    (Or.inr ⟨"garbled", "Invalid json output", rfl, rfl⟩)

/-- C7: any store `create_vector_store` builds and any pipeline
`load_rag_pipeline` loads carry the same embedding model name (the literal
both sources configure), so any dimension assignment gives the stored and
query vectors the same dimension. -/
theorem C7_same_embedder_build_and_query (loaded : List RagDoc)
    (splitDocs : List RagDoc → List RagDoc)
    (embedInitOk buildOk outputPathExists : Bool) (output_path : String)
    (store : VectorStoreBuild) (pathExists : String → Bool)
    (faissLoadExc : Option String) (cfg : RagPipelineConfig)
    (hbuild : (create_vector_store loaded splitDocs embedInitOk buildOk
        outputPathExists output_path).built = some store)
    (hload : load_rag_pipeline pathExists faissLoadExc = Except.ok cfg) :
    store.embeddings_model = cfg.embeddings_model ∧
    store.embeddings_model = "sentence-transformers/all-MiniLM-L6-v2" ∧
    ∀ dim : String → Nat, dim store.embeddings_model = dim cfg.embeddings_model := by
  have hs : store.embeddings_model = "sentence-transformers/all-MiniLM-L6-v2" := by
    unfold create_vector_store at hbuild
    split at hbuild
    · simp at hbuild
    · split at hbuild
      · simp at hbuild
      · split at hbuild
        · simp at hbuild
        · have h2 := Option.some.inj hbuild
          rw [← h2]
  have hc : cfg.embeddings_model = "sentence-transformers/all-MiniLM-L6-v2" := by
    unfold load_rag_pipeline at hload
    split at hload
    · simp at hload
    · split at hload
      · simp at hload
      · have h2 := Except.ok.inj hload
        rw [← h2]
  exact ⟨by rw [hs, hc], hs, fun dim => by rw [hs, hc]⟩

/-- Witness for C7: a concrete successful build and a concrete successful
load produce the same embedding model name. -/
theorem C7_same_embedder_build_and_query_witness :
    builtStoreW.embeddings_model = ragConfigW.embeddings_model ∧
    builtStoreW.embeddings_model = "sentence-transformers/all-MiniLM-L6-v2" ∧
    ∀ dim : String → Nat, dim builtStoreW.embeddings_model = dim ragConfigW.embeddings_model :=
  C7_same_embedder_build_and_query [sampleDoc] id true true false "faiss_index"
    builtStoreW (fun _ => true) none ragConfigW rfl rfl

/-- C9: a schema-conformant successful result of `score_lead` has exactly the
keys `score`, `reasoning`, `key_factors` and `source` — never `rationale` —
so the single-document display path of `app.py`, which reads
`score_result['rationale']`, raises `KeyError`. -/
theorem C9_display_rationale_keyerror (ls : LeadScore) (fs : FileSystem)
    (chain : ScorerChain) (path content : String)
    (hfs : fs path = some content)
    (hchain : chain content = Except.ok (LeadScore.toDict ls)) :
    hasKey (score_lead fs chain path) "rationale" = false ∧
    hasKey (score_lead fs chain path) "score" = true ∧
    (∀ k, hasKey (score_lead fs chain path) k = true →
      k = "score" ∨ k = "reasoning" ∨ k = "key_factors" ∨ k = "source") ∧
    score_selected_display (score_lead fs chain path) =
      Except.error "KeyError: rationale" := by
  have hres : score_lead fs chain path =
      [("score", PyVal.int ls.score), ("reasoning", PyVal.str ls.reasoning),
       ("key_factors", PyVal.list (ls.key_factors.map PyVal.str)),
       ("source", PyVal.str (basename path))] := by
    simp [score_lead, hfs, hchain, dictSet, hasKey, LeadScore.toDict]
  rw [hres]
  refine ⟨?_, ?_, ?_, ?_⟩
  · simp [hasKey]
  · simp [hasKey]
  · intro k hk
    simp [hasKey] at hk
    rcases hk with h | h | h | h
    · exact Or.inl h.symm
    · exact Or.inr (Or.inl h.symm)
    · exact Or.inr (Or.inr (Or.inl h.symm))
    · exact Or.inr (Or.inr (Or.inr h.symm))
  · simp [score_selected_display, hasKey, dictGet]

/-- Witness for C9: a concrete schema-conformant score makes the display path
raise `KeyError` on `rationale`. -/
theorem C9_display_rationale_keyerror_witness :
    hasKey (score_lead fsConst chainSchema "mock_docs/document_1.txt") "rationale" = false ∧
    hasKey (score_lead fsConst chainSchema "mock_docs/document_1.txt") "score" = true ∧
    (∀ k, hasKey (score_lead fsConst chainSchema "mock_docs/document_1.txt") k = true →
      k = "score" ∨ k = "reasoning" ∨ k = "key_factors" ∨ k = "source") ∧
    score_selected_display (score_lead fsConst chainSchema "mock_docs/document_1.txt") =
      Except.error "KeyError: rationale" :=
  C9_display_rationale_keyerror sampleLeadScore fsConst chainSchema
    "mock_docs/document_1.txt" "Acme Corp seeks a 5,000,000 loan." rfl rfl

/-- C10: `score_lead` is total by construction (every exception of the Python
body lives in `fs` and `chain` and is caught), and on any failing document
its result carries an `error` key, a `source` key equal to the path's
basename, and no `score` key, so the caller's presence-of-`score` filter
always excludes it. -/
theorem C10_error_results_filtered (fs : FileSystem) (chain : ScorerChain)
    (path : String)
    (hfail : fs path = none ∨ ∃ c e, fs path = some c ∧ chain c = Except.error e) :
    hasKey (score_lead fs chain path) "error" = true ∧
    dictGet (score_lead fs chain path) "source" = some (PyVal.str (basename path)) ∧
    hasKey (score_lead fs chain path) "score" = false ∧
    successful_scores [score_lead fs chain path] = [] := by
  rcases hfail with h | ⟨c, e, hc, he⟩
  · refine ⟨?_, ?_, ?_, ?_⟩ <;>
      simp [score_lead, h, hasKey, dictGet, successful_scores]
  · refine ⟨?_, ?_, ?_, ?_⟩ <;>
      simp [score_lead, hc, he, hasKey, dictGet, successful_scores]

/-- Witness for C10: a missing file produces the structured error result and
is excluded by the filter. -/
theorem C10_error_results_filtered_witness :
    hasKey (score_lead fsMissing chainSchema "mock_docs/missing.txt") "error" = true ∧
    dictGet (score_lead fsMissing chainSchema "mock_docs/missing.txt") "source" =
      some (PyVal.str (basename "mock_docs/missing.txt")) ∧
    hasKey (score_lead fsMissing chainSchema "mock_docs/missing.txt") "score" = false ∧
    successful_scores [score_lead fsMissing chainSchema "mock_docs/missing.txt"] = [] :=
  C10_error_results_filtered fsMissing chainSchema "mock_docs/missing.txt" (Or.inl rfl)

end LeadInsights
